import Mathlib

/-!
Shallow embedding of the SafeAgents client-construction layer:
src/safeagents/core/src/frameworks/client_factory.py and
src/safeagents/core/src/clients/model_client.py.
External SDK constructors (autogen_ext, langchain_openai, openai) are out of
scope per the spec and are modelled at their interface boundary: each one
either rejects its arguments with an exception or returns an object that
captures exactly the arguments it was called with.  The rejection predicate
of each constructor is a parameter (SDKBehavior), which the factory treats as
opaque, exactly as the source does.
-/

namespace SafeAgents

/-- Opaque credential/token-provider object, forwarded verbatim and never
inspected by this layer. -/
structure TokenProvider where
  tpid : Nat
deriving DecidableEq

/-- Opaque callable tool definition. -/
structure Tool where
  name : String
deriving DecidableEq

/-- Modelled from the spec: the Framework enumeration of framework_types.py,
whose source file is not included under src/.  The spec describes a closed
enumeration with three named variants, used purely as a dispatch key.  The
constructor other represents any value outside the enumerated set that a
caller could pass where a Framework is expected (the source compares the
dispatch key by equality and has an else branch for such values). -/
inductive Framework
  | AUTOGEN
  | LANGGRAPH
  | OPENAI_AGENTS
  | other (value : String)
deriving DecidableEq

/-- An exception raised by an external SDK constructor (for example on a
malformed endpoint).  Opaque to this layer. -/
structure ExtErr where
  message : String
deriving DecidableEq

/-- The llm_config dictionary consumed by ClientFactory.create_client; its
keys are the ones the source reads: model, temperature, azure_deployment,
azure_endpoint, api_version, azure_ad_token_provider. -/
structure LLMConfig where
  model : String
  temperature : Rat
  azure_deployment : String
  azure_endpoint : String
  api_version : String
  azure_ad_token_provider : TokenProvider
deriving DecidableEq

/-- Errors that escape ClientFactory.create_client.
UnsupportedFrameworkError is the ValueError the source raises on the else
branch of the dispatch, with the message interpolating the framework value;
the spec names it UnsupportedFrameworkError.
ClientConstructionError is an exception surfaced by an underlying SDK
constructor: the source has no try/except, so the original exception
propagates unchanged, and this constructor is just its injection into the
error type of the factory, carrying exactly the original cause and nothing
else. -/
inductive FactoryError
  | UnsupportedFrameworkError (framework : Framework)
  | ClientConstructionError (cause : ExtErr)
deriving DecidableEq

/-- The framework value attached to a factory error, when there is one: the
dispatch ValueError interpolates the framework into its message, while a
propagated construction exception carries no framework information added by
this layer. -/
def FactoryError.carriedFramework : FactoryError → Option Framework
  | FactoryError.UnsupportedFrameworkError fw => some fw
  | FactoryError.ClientConstructionError _ => none

/-- AzureOpenAIChatCompletionClient instance as built by the factory path:
it captures the keyword arguments it was constructed with (the whole
llm_config dictionary is splatted into the call). -/
structure AutogenClient where
  kwargs : LLMConfig
deriving DecidableEq

/-- Constructor-argument shape of AzureChatOpenAI, the langgraph_config
dictionary built by ClientFactory. -/
structure LangGraphArgs where
  name : String
  temperature : Rat
  azure_deployment : String
  azure_endpoint : String
  api_version : String
  azure_ad_token_provider : TokenProvider
deriving DecidableEq

/-- AzureChatOpenAI instance: captures its constructor arguments, plus the
tool-binding kwargs once bind_tools has wrapped it (none right after
construction). -/
structure LangGraphClient where
  args : LangGraphArgs
  bound_tools : Option (List Tool × Bool) := none
deriving DecidableEq

/-- Models the external langchain bind_tools method at its interface
boundary, as the spec describes it: it returns a new handle configured to
offer exactly the given tool set, honoring the parallel-call flag. -/
def LangGraphClient.bind_tools (c : LangGraphClient) (tools : List Tool)
    (parallel_tool_calls : Bool) : LangGraphClient :=
  { c with bound_tools := some (tools, parallel_tool_calls) }

/-- Constructor-argument shape of AsyncAzureOpenAI, the openai_agents_config
dictionary built by ClientFactory. -/
structure OpenAIAgentsArgs where
  azure_endpoint : String
  azure_ad_token_provider : TokenProvider
  api_version : String
deriving DecidableEq

/-- AsyncAzureOpenAI instance: captures its constructor arguments. -/
structure OpenAIAgentsClient where
  args : OpenAIAgentsArgs
deriving DecidableEq

/-- A client handle returned by the factory: one of the three
framework-specific SDK objects.  The factory treats it as opaque. -/
inductive Client
  | autogen (c : AutogenClient)
  | langgraph (c : LangGraphClient)
  | openai_agents (c : OpenAIAgentsClient)
deriving DecidableEq

/-- Autogen model capabilities dictionary used by Model (model_client.py). -/
structure ModelCapabilities where
  function_calling : Bool
  json_output : Bool
  vision : Bool
  structured_output : Bool
deriving DecidableEq

/-- The chat_completion_kwargs dictionary built by
Model.from_azure_openai_for_autogen (model_client.py), with the keys the
source writes there.  The config fields are optional strings because
ModelConfig defaults them to None. -/
structure ChatCompletionKwargs where
  azure_endpoint : Option String
  api_version : Option String
  model_capabilities : ModelCapabilities
  azure_ad_token_provider : Option String
  model : Option String
  temperature : Rat
  azure_deployment : Option String
deriving DecidableEq

/-- AzureOpenAIChatCompletionClient instance as built by the Model wrapper
path, which passes a different keyword-argument shape than the factory path
(Python keyword splatting is dynamic; the two call shapes are modelled
separately).  Captures its constructor arguments. -/
structure AutogenModelClient where
  kwargs : ChatCompletionKwargs
deriving DecidableEq

/-- Interface model of the external SDK constructors, which are out of scope
per the spec and specified only at their boundary: each constructor either
raises (some exception) or succeeds and returns an object capturing its
arguments.  Which argument values are rejected is the business of the
external collaborator, so it is a parameter here. -/
structure SDKBehavior where
  autogen_check : LLMConfig → Option ExtErr
  langgraph_check : LangGraphArgs → Option ExtErr
  openai_check : OpenAIAgentsArgs → Option ExtErr
  autogen_model_check : ChatCompletionKwargs → Option ExtErr

/-- External constructor autogen_ext.models.openai.AzureOpenAIChatCompletionClient
at the call shape used by ClientFactory. -/
def AzureOpenAIChatCompletionClient (sdk : SDKBehavior) (kwargs : LLMConfig) :
    Except ExtErr AutogenClient :=
  match sdk.autogen_check kwargs with
  | some e => Except.error e
  | none => Except.ok (AutogenClient.mk kwargs)

/-- External constructor langchain_openai.chat_models.AzureChatOpenAI. -/
def AzureChatOpenAI (sdk : SDKBehavior) (args : LangGraphArgs) :
    Except ExtErr LangGraphClient :=
  match sdk.langgraph_check args with
  | some e => Except.error e
  | none => Except.ok (LangGraphClient.mk args none)

/-- External constructor openai.AsyncAzureOpenAI. -/
def AsyncAzureOpenAI (sdk : SDKBehavior) (args : OpenAIAgentsArgs) :
    Except ExtErr OpenAIAgentsClient :=
  match sdk.openai_check args with
  | some e => Except.error e
  | none => Except.ok (OpenAIAgentsClient.mk args)

/-- External constructor AzureOpenAIChatCompletionClient at the call shape
used by Model.from_azure_openai_for_autogen. -/
def AzureOpenAIChatCompletionClientModel (sdk : SDKBehavior)
    (kwargs : ChatCompletionKwargs) : Except ExtErr AutogenModelClient :=
  match sdk.autogen_model_check kwargs with
  | some e => Except.error e
  | none => Except.ok (AutogenModelClient.mk kwargs)

/-- Update of one key of an environment-style string map (os.environ
assignment): replace the value in place if the key is present, else append
the pair. -/
def setEnv : List (String × String) → String → String → List (String × String)
  | [], k, v => [(k, v)]
  | (k0, v0) :: rest, k, v =>
      if k0 = k then (k, v) :: rest else (k0, v0) :: setEnv rest k v

/-- Whether the environment map holds the key. -/
def containsKey : List (String × String) → String → Bool
  | [], _ => false
  | (k0, _) :: rest, k => k0 = k || containsKey rest k

/-- Process-wide mutable state touched by the OpenAI Agents path: the
default-client registration of the agents library (set_default_openai_client
stores the client together with its use_for_tracing flag), the default API
shape, the tracing switch, and os.environ. -/
structure GlobalState where
  default_openai_client : Option (OpenAIAgentsClient × Bool)
  default_openai_api : String
  tracing_disabled : Bool
  environ : List (String × String)
deriving DecidableEq

/-- agents.set_default_openai_api. -/
def set_default_openai_api (s : GlobalState) (api : String) : GlobalState :=
  { s with default_openai_api := api }

/-- agents.set_default_openai_client. -/
def set_default_openai_client (s : GlobalState) (client : OpenAIAgentsClient)
    (use_for_tracing : Bool) : GlobalState :=
  { s with default_openai_client := some (client, use_for_tracing) }

/-- agents.set_tracing_disabled. -/
def set_tracing_disabled (s : GlobalState) (disabled : Bool) : GlobalState :=
  { s with tracing_disabled := disabled }

/-- os.environ key assignment on the process state. -/
def GlobalState.setEnvVar (s : GlobalState) (k v : String) : GlobalState :=
  { s with environ := setEnv s.environ k v }

namespace ClientFactory

/-- ClientFactory._create_autogen_client: forwards the whole llm_config
dictionary to AzureOpenAIChatCompletionClient. -/
def create_autogen_client (sdk : SDKBehavior) (llm_config : LLMConfig) :
    Except ExtErr Client :=
  (AzureOpenAIChatCompletionClient sdk llm_config).map Client.autogen

/-- The langgraph_config dictionary built by
ClientFactory._create_langgraph_client: transform config keys to LangGraph
format. -/
def langgraph_config (llm_config : LLMConfig) : LangGraphArgs :=
  { name := llm_config.model
    temperature := llm_config.temperature
    azure_deployment := llm_config.azure_deployment
    azure_endpoint := llm_config.azure_endpoint
    api_version := llm_config.api_version
    azure_ad_token_provider := llm_config.azure_ad_token_provider }

/-- ClientFactory._create_langgraph_client. -/
def create_langgraph_client (sdk : SDKBehavior) (llm_config : LLMConfig) :
    Except ExtErr Client :=
  (AzureChatOpenAI sdk (langgraph_config llm_config)).map Client.langgraph

/-- The openai_agents_config dictionary built by
ClientFactory._create_openai_agents_client. -/
def openai_agents_config (llm_config : LLMConfig) : OpenAIAgentsArgs :=
  { azure_endpoint := llm_config.azure_endpoint
    azure_ad_token_provider := llm_config.azure_ad_token_provider
    api_version := llm_config.api_version }

/-- ClientFactory._create_openai_agents_client: constructs AsyncAzureOpenAI,
then sets global defaults for the OpenAI Agents framework and mirrors
endpoint and api version into environment variables.  On a constructor
exception nothing after the construction runs, so the state is returned
untouched. -/
def create_openai_agents_client (sdk : SDKBehavior) (llm_config : LLMConfig)
    (s : GlobalState) : GlobalState × Except ExtErr Client :=
  match AsyncAzureOpenAI sdk (openai_agents_config llm_config) with
  | Except.error e => (s, Except.error e)
  | Except.ok client =>
      let s1 := set_default_openai_api s "chat_completions"
      let s2 := set_default_openai_client s1 client false
      let s3 := set_tracing_disabled s2 true
      let s4 := s3.setEnvVar "OPENAI_API_TYPE" "azure"
      let s5 := s4.setEnvVar "OPENAI_API_BASE" llm_config.azure_endpoint
      let s6 := s5.setEnvVar "OPENAI_API_VERSION" llm_config.api_version
      (s6, Except.ok (Client.openai_agents client))

/-- ClientFactory.create_client: dispatch on the framework value, else raise
ValueError (UnsupportedFrameworkError).  Exceptions of the underlying
constructors propagate unchanged. -/
def create_client (sdk : SDKBehavior) (framework : Framework)
    (llm_config : LLMConfig) (s : GlobalState) :
    GlobalState × Except FactoryError Client :=
  if framework = Framework.AUTOGEN then
    (s, (create_autogen_client sdk llm_config).mapError
          FactoryError.ClientConstructionError)
  else if framework = Framework.LANGGRAPH then
    (s, (create_langgraph_client sdk llm_config).mapError
          FactoryError.ClientConstructionError)
  else if framework = Framework.OPENAI_AGENTS then
    match create_openai_agents_client sdk llm_config s with
    | (s2, r) => (s2, r.mapError FactoryError.ClientConstructionError)
  else
    (s, Except.error (FactoryError.UnsupportedFrameworkError framework))

/-- A Python AttributeError: raised when the LANGGRAPH branch calls
client.bind_tools on an object that has no such method (only the langchain
client does). -/
inductive BindError
  | AttributeError (attr : String)
deriving DecidableEq

/-- ClientFactory.bind_tools_for_framework: bind tools to a client in a
framework-specific way.  The source defaults parallel_tool_calls to true;
the argument is explicit here. -/
def bind_tools_for_framework (client : Client) (framework : Framework)
    (tools : List Tool) (parallel_tool_calls : Bool) :
    Except BindError Client :=
  if framework = Framework.LANGGRAPH then
    match client with
    | Client.langgraph c =>
        Except.ok (Client.langgraph (c.bind_tools tools parallel_tool_calls))
    | _ => Except.error (BindError.AttributeError "bind_tools")
  else if framework = Framework.AUTOGEN then
    Except.ok client
  else if framework = Framework.OPENAI_AGENTS then
    Except.ok client
  else
    Except.ok client

end ClientFactory

/-- ModelConfig (model_client.py): the config params of Model
initialization; all identifying fields default to None and temperature
defaults to 0.0. -/
structure ModelConfig where
  azure_endpoint : Option String := none
  azure_deployment : Option String := none
  azure_model_name : Option String := none
  azure_api_version : Option String := none
  azure_token_provider : Option String := none
  temperature : Rat := 0
deriving DecidableEq

/-- Model (model_client.py): pairs a config, a constructed client and the
framework label. -/
structure Model where
  config : ModelConfig
  client : AutogenModelClient
  framework : String
deriving DecidableEq

/-- Model.from_azure_openai_for_autogen: builds chat_completion_kwargs with
all four model capabilities enabled, constructs the Autogen client, and
wraps it with the config under the framework label Autogen.  A constructor
exception propagates. -/
def Model.from_azure_openai_for_autogen (sdk : SDKBehavior)
    (config : ModelConfig) : Except ExtErr Model :=
  let chat_completion_kwargs : ChatCompletionKwargs :=
    { azure_endpoint := config.azure_endpoint
      api_version := config.azure_api_version
      model_capabilities :=
        { function_calling := true
          json_output := true
          vision := true
          structured_output := true }
      azure_ad_token_provider := config.azure_token_provider
      model := config.azure_model_name
      temperature := config.temperature
      azure_deployment := config.azure_deployment }
  (AzureOpenAIChatCompletionClientModel sdk chat_completion_kwargs).map
    (fun model_client => Model.mk config model_client "Autogen")

/-- Model.get_client. -/
def Model.get_client (m : Model) : AutogenModelClient :=
  m.client

/-! Concrete fixtures used by counterexamples and witnesses. -/

/-- An SDK behavior on which every constructor succeeds. -/
def sdkOk : SDKBehavior :=
  { autogen_check := fun _ => none
    langgraph_check := fun _ => none
    openai_check := fun _ => none
    autogen_model_check := fun _ => none }

/-- An SDK behavior on which every constructor raises, as on a malformed
endpoint. -/
def sdkFail : SDKBehavior :=
  { autogen_check := fun _ => some (ExtErr.mk "malformed endpoint")
    langgraph_check := fun _ => some (ExtErr.mk "malformed endpoint")
    openai_check := fun _ => some (ExtErr.mk "malformed endpoint")
    autogen_model_check := fun _ => some (ExtErr.mk "malformed endpoint") }

/-- An SDK behavior whose Autogen constructor rejects any empty identifying
field, per the interface invariant of the spec, and succeeds otherwise. -/
def sdkValidating : SDKBehavior :=
  { autogen_check := fun kw =>
      if kw.azure_endpoint = "" ∨ kw.azure_deployment = "" ∨ kw.model = ""
          ∨ kw.api_version = "" then
        some (ExtErr.mk "missing required field")
      else
        none
    langgraph_check := fun _ => none
    openai_check := fun _ => none
    autogen_model_check := fun _ => none }

/-- A fully populated canonical configuration. -/
def cfg0 : LLMConfig :=
  { model := "gpt-4o"
    temperature := 0
    azure_deployment := "dep0"
    azure_endpoint := "https://one.example"
    api_version := "2024-06-01"
    azure_ad_token_provider := TokenProvider.mk 0 }

/-- A second configuration differing from cfg0 in its endpoint. -/
def cfg1x : LLMConfig :=
  { cfg0 with azure_endpoint := "https://two.example" }

/-- cfg0 with an empty deployment identifier. -/
def cfgEmptyDep : LLMConfig :=
  { cfg0 with azure_deployment := "" }

/-- An initial process state with nothing registered. -/
def s0 : GlobalState :=
  { default_openai_client := none
    default_openai_api := "responses"
    tracing_disabled := false
    environ := [] }

/-!  Claim theorems. -/

/-- C1: for every framework value outside the enumerated set and every
configuration, create_client raises UnsupportedFrameworkError (never a
silent default), and each of the three enumerated values dispatches to
exactly its one framework-specific translation routine. -/
theorem create_client_strict_dispatch (sdk : SDKBehavior) (cfg : LLMConfig)
    (s : GlobalState) :
    (∀ v : String,
      ClientFactory.create_client sdk (Framework.other v) cfg s
        = (s, Except.error
            (FactoryError.UnsupportedFrameworkError (Framework.other v))))
  ∧ ClientFactory.create_client sdk Framework.AUTOGEN cfg s
      = (s, (ClientFactory.create_autogen_client sdk cfg).mapError
              FactoryError.ClientConstructionError)
  ∧ ClientFactory.create_client sdk Framework.LANGGRAPH cfg s
      = (s, (ClientFactory.create_langgraph_client sdk cfg).mapError
              FactoryError.ClientConstructionError)
  ∧ ClientFactory.create_client sdk Framework.OPENAI_AGENTS cfg s
      = ((ClientFactory.create_openai_agents_client sdk cfg s).1,
         (ClientFactory.create_openai_agents_client sdk cfg s).2.mapError
           FactoryError.ClientConstructionError) :=
  ⟨fun _ => rfl, rfl, rfl, rfl⟩

/-- C2 counterexample: the source wraps nothing, so a construction failure
reaches the caller as the original exception, which carries the original
cause but no framework name attached by this layer; the claim that the
propagated error carries the framework name is false at this input. -/
theorem create_client_error_carries_no_framework_name :
    (ClientFactory.create_client sdkFail Framework.AUTOGEN cfg0 s0).2
      = Except.error (FactoryError.ClientConstructionError
          (ExtErr.mk "malformed endpoint"))
  ∧ FactoryError.carriedFramework
      (FactoryError.ClientConstructionError (ExtErr.mk "malformed endpoint"))
      = none :=
  ⟨rfl, rfl⟩

/-- C2 amended: for every framework and configuration, when the underlying
construction routine raises, create_client propagates the failure carrying
exactly the original cause (no framework name is attached); no exception is
swallowed and no client handle is returned. -/
theorem create_client_propagates_original_cause (sdk : SDKBehavior)
    (cfg : LLMConfig) (s : GlobalState) (e : ExtErr) :
    (sdk.autogen_check cfg = some e →
      ClientFactory.create_client sdk Framework.AUTOGEN cfg s
        = (s, Except.error (FactoryError.ClientConstructionError e)))
  ∧ (sdk.langgraph_check (ClientFactory.langgraph_config cfg) = some e →
      ClientFactory.create_client sdk Framework.LANGGRAPH cfg s
        = (s, Except.error (FactoryError.ClientConstructionError e)))
  ∧ (sdk.openai_check (ClientFactory.openai_agents_config cfg) = some e →
      ClientFactory.create_client sdk Framework.OPENAI_AGENTS cfg s
        = (s, Except.error (FactoryError.ClientConstructionError e))) := by
  refine ⟨fun h => ?_, fun h => ?_, fun h => ?_⟩
  · simp [ClientFactory.create_client, ClientFactory.create_autogen_client,
      AzureOpenAIChatCompletionClient, h, Except.map, Except.mapError]
  · simp [ClientFactory.create_client, ClientFactory.create_langgraph_client,
      AzureChatOpenAI, h, Except.map, Except.mapError]
  · simp [ClientFactory.create_client,
      ClientFactory.create_openai_agents_client, AsyncAzureOpenAI, h,
      Except.mapError]

/-- C2 amended witness at a concrete failing construction. -/
theorem create_client_propagates_original_cause_witness :
    ClientFactory.create_client sdkFail Framework.LANGGRAPH cfg0 s0
      = (s0, Except.error (FactoryError.ClientConstructionError
          (ExtErr.mk "malformed endpoint"))) :=
  (create_client_propagates_original_cause sdkFail cfg0 s0
    (ExtErr.mk "malformed endpoint")).2.1 rfl

/-- C3: for every configuration with non-empty identifying fields, the
LangGraph routine passes constructor arguments translated exactly per the
mapping table (name gets the canonical model name, and azure_endpoint,
api_version, azure_deployment, azure_ad_token_provider and temperature the
corresponding canonical fields), and the Autogen routine passes the whole
configuration, so its model argument equals the canonical model name. -/
theorem create_client_field_translation (sdk : SDKBehavior) (cfg : LLMConfig)
    (s : GlobalState)
    (hne : cfg.azure_endpoint ≠ "" ∧ cfg.azure_deployment ≠ ""
      ∧ cfg.model ≠ "" ∧ cfg.api_version ≠ "")
    (hB : sdk.langgraph_check (ClientFactory.langgraph_config cfg) = none)
    (hA : sdk.autogen_check cfg = none) :
    ClientFactory.create_client sdk Framework.LANGGRAPH cfg s
      = (s, Except.ok (Client.langgraph (LangGraphClient.mk
          (LangGraphArgs.mk cfg.model cfg.temperature cfg.azure_deployment
            cfg.azure_endpoint cfg.api_version cfg.azure_ad_token_provider)
          none)))
  ∧ ClientFactory.create_client sdk Framework.AUTOGEN cfg s
      = (s, Except.ok (Client.autogen (AutogenClient.mk cfg)))
  ∧ (ClientFactory.langgraph_config cfg).name = cfg.model
  ∧ (AutogenClient.mk cfg).kwargs.model = cfg.model := by
  refine ⟨?_, ?_, rfl, rfl⟩
  · simp [ClientFactory.create_client, ClientFactory.create_langgraph_client,
      AzureChatOpenAI, hB, Except.map, Except.mapError]
    rfl
  · simp [ClientFactory.create_client, ClientFactory.create_autogen_client,
      AzureOpenAIChatCompletionClient, hA, Except.map, Except.mapError]

/-- C3 witness at a concrete configuration and succeeding SDK. -/
theorem create_client_field_translation_witness :
    ClientFactory.create_client sdkOk Framework.LANGGRAPH cfg0 s0
      = (s0, Except.ok (Client.langgraph (LangGraphClient.mk
          (LangGraphArgs.mk "gpt-4o" 0 "dep0" "https://one.example"
            "2024-06-01" (TokenProvider.mk 0)) none)))
  ∧ ClientFactory.create_client sdkOk Framework.AUTOGEN cfg0 s0
      = (s0, Except.ok (Client.autogen (AutogenClient.mk cfg0)))
  ∧ (ClientFactory.langgraph_config cfg0).name = cfg0.model
  ∧ (AutogenClient.mk cfg0).kwargs.model = cfg0.model :=
  create_client_field_translation sdkOk cfg0 s0 (by decide) rfl rfl

/-- C4: a configuration with an empty identifying field is rejected by the
underlying constructor (the interface invariant of the spec for the external
collaborator), and create_client then fails with the propagated construction
error instead of returning any client; in particular so for an empty
deployment identifier under Framework A. -/
theorem create_client_autogen_empty_required_field_fails (sdk : SDKBehavior)
    (cfg : LLMConfig) (s : GlobalState) (e : ExtErr)
    (hempty : cfg.azure_endpoint = "" ∨ cfg.azure_deployment = ""
      ∨ cfg.model = "" ∨ cfg.api_version = "")
    (hsdk : sdk.autogen_check cfg = some e) :
    ClientFactory.create_client sdk Framework.AUTOGEN cfg s
      = (s, Except.error (FactoryError.ClientConstructionError e))
  ∧ ∀ c : Client,
      (ClientFactory.create_client sdk Framework.AUTOGEN cfg s).2
        ≠ Except.ok c := by
  have h1 : ClientFactory.create_client sdk Framework.AUTOGEN cfg s
      = (s, Except.error (FactoryError.ClientConstructionError e)) := by
    simp [ClientFactory.create_client, ClientFactory.create_autogen_client,
      AzureOpenAIChatCompletionClient, hsdk, Except.map, Except.mapError]
  refine ⟨h1, fun c => ?_⟩
  rw [h1]
  simp

/-- C4 witness: empty deployment identifier, a validating SDK boundary. -/
theorem create_client_autogen_empty_required_field_fails_witness :
    ClientFactory.create_client sdkValidating Framework.AUTOGEN cfgEmptyDep s0
      = (s0, Except.error (FactoryError.ClientConstructionError
          (ExtErr.mk "missing required field"))) :=
  (create_client_autogen_empty_required_field_fails sdkValidating cfgEmptyDep
    s0 (ExtErr.mk "missing required field") (by decide) (by decide)).1

/-- C5: create_client leaves the process state untouched for Frameworks A
and B; for Framework C, and only there, it registers the new client as the
process-wide default (with use_for_tracing false), pins the default API to
chat_completions, disables tracing, and mirrors the API type azure, the
endpoint and the api version into the environment. -/
theorem create_client_side_effects (sdk : SDKBehavior) (cfg : LLMConfig)
    (s : GlobalState) :
    (ClientFactory.create_client sdk Framework.AUTOGEN cfg s).1 = s
  ∧ (ClientFactory.create_client sdk Framework.LANGGRAPH cfg s).1 = s
  ∧ (sdk.openai_check (ClientFactory.openai_agents_config cfg) = none →
      ClientFactory.create_client sdk Framework.OPENAI_AGENTS cfg s
        = (GlobalState.mk
            (some (OpenAIAgentsClient.mk
              (ClientFactory.openai_agents_config cfg), false))
            "chat_completions"
            true
            (setEnv (setEnv (setEnv s.environ "OPENAI_API_TYPE" "azure")
              "OPENAI_API_BASE" cfg.azure_endpoint)
              "OPENAI_API_VERSION" cfg.api_version),
           Except.ok (Client.openai_agents (OpenAIAgentsClient.mk
             (ClientFactory.openai_agents_config cfg))))) := by
  refine ⟨rfl, rfl, fun h => ?_⟩
  simp [ClientFactory.create_client,
    ClientFactory.create_openai_agents_client, AsyncAzureOpenAI, h,
    set_default_openai_api, set_default_openai_client, set_tracing_disabled,
    GlobalState.setEnvVar, Except.mapError]

/-- C5 witness at a concrete configuration and succeeding SDK. -/
theorem create_client_side_effects_witness :
    ClientFactory.create_client sdkOk Framework.OPENAI_AGENTS cfg0 s0
      = (GlobalState.mk
          (some (OpenAIAgentsClient.mk
            (ClientFactory.openai_agents_config cfg0), false))
          "chat_completions"
          true
          [("OPENAI_API_TYPE", "azure"),
           ("OPENAI_API_BASE", "https://one.example"),
           ("OPENAI_API_VERSION", "2024-06-01")],
         Except.ok (Client.openai_agents (OpenAIAgentsClient.mk
           (ClientFactory.openai_agents_config cfg0)))) :=
  (create_client_side_effects sdkOk cfg0 s0).2.2 rfl

/-- C6: tool binding for Framework B wraps the client with exactly the given
tool set and the given parallel flag; for Frameworks A and C it returns the
input client unchanged. -/
theorem bind_tools_framework_dispatch :
    (∀ (c : LangGraphClient) (tools : List Tool) (p : Bool),
      ClientFactory.bind_tools_for_framework (Client.langgraph c)
          Framework.LANGGRAPH tools p
        = Except.ok (Client.langgraph
            (LangGraphClient.mk c.args (some (tools, p)))))
  ∧ (∀ (client : Client) (tools : List Tool) (p : Bool),
      ClientFactory.bind_tools_for_framework client Framework.AUTOGEN tools p
        = Except.ok client)
  ∧ (∀ (client : Client) (tools : List Tool) (p : Bool),
      ClientFactory.bind_tools_for_framework client Framework.OPENAI_AGENTS
          tools p
        = Except.ok client) :=
  ⟨fun _ _ _ => rfl, fun _ _ _ => rfl, fun _ _ _ => rfl⟩

/-- C7: for every framework value outside the enumerated set, every client
and every tool list, tool binding is a defensive no-op returning the input
client and never raising. -/
theorem bind_tools_unknown_framework_noop (v : String) (client : Client)
    (tools : List Tool) (p : Bool) :
    ClientFactory.bind_tools_for_framework client (Framework.other v) tools p
      = Except.ok client
  ∧ ∀ e : ClientFactory.BindError,
      ClientFactory.bind_tools_for_framework client (Framework.other v) tools p
        ≠ Except.error e :=
  ⟨rfl, fun _ h => Except.noConfusion h⟩

/-! Lemmas about environment-map update, used for the re-registration
behavior of the Framework C path. -/

/-- Setting the same key twice keeps only the second value. -/
theorem setEnv_setEnv_self (env : List (String × String)) (k v w : String) :
    setEnv (setEnv env k v) k w = setEnv env k w := by
  induction env with
  | nil => simp [setEnv]
  | cons a rest ih =>
      obtain ⟨k0, v0⟩ := a
      by_cases h : k0 = k
      · simp [setEnv, h]
      · simp [setEnv, h, ih]

/-- A key just set is present. -/
theorem containsKey_setEnv_self (env : List (String × String))
    (k v : String) : containsKey (setEnv env k v) k = true := by
  induction env with
  | nil => simp [setEnv, containsKey]
  | cons a rest ih =>
      obtain ⟨k0, v0⟩ := a
      by_cases h : k0 = k
      · simp [setEnv, containsKey, h]
      · simp [setEnv, containsKey, h, ih]

/-- Presence of a key survives any update. -/
theorem containsKey_setEnv (env : List (String × String))
    (k k' v : String) (h : containsKey env k = true) :
    containsKey (setEnv env k' v) k = true := by
  induction env with
  | nil => simp [containsKey] at h
  | cons a rest ih =>
      obtain ⟨k0, v0⟩ := a
      by_cases hk : k0 = k'
      · subst hk
        simp [containsKey] at h
        simp [setEnv, containsKey]
        rcases h with h | h
        · exact Or.inl h
        · exact Or.inr h
      · simp [containsKey] at h
        simp [setEnv, hk, containsKey]
        rcases h with h | h
        · exact Or.inl h
        · exact Or.inr (ih h)

/-- Updates of two distinct keys commute once the first key is present. -/
theorem setEnv_comm_of_containsKey (env : List (String × String))
    (k k' v w : String) (hne : k ≠ k') (h : containsKey env k = true) :
    setEnv (setEnv env k' w) k v = setEnv (setEnv env k v) k' w := by
  induction env with
  | nil => simp [containsKey] at h
  | cons a rest ih =>
      obtain ⟨k0, v0⟩ := a
      by_cases h1 : k0 = k
      · subst h1
        simp [setEnv, hne, Ne.symm hne]
      · by_cases h2 : k0 = k'
        · subst h2
          simp [setEnv, Ne.symm hne, h1]
        · have h3 : containsKey rest k = true := by
            simp [containsKey, h1] at h
            exact h
          simp [setEnv, h1, h2, ih h3]

/-- Mirroring the three OPENAI environment keys a second time leaves exactly
the state of the second mirroring. -/
theorem setEnv_remirror (env : List (String × String))
    (e1 v1 e2 v2 : String) :
    setEnv (setEnv (setEnv (setEnv (setEnv (setEnv env
      "OPENAI_API_TYPE" "azure") "OPENAI_API_BASE" e1)
      "OPENAI_API_VERSION" v1) "OPENAI_API_TYPE" "azure")
      "OPENAI_API_BASE" e2) "OPENAI_API_VERSION" v2
  = setEnv (setEnv (setEnv env "OPENAI_API_TYPE" "azure")
      "OPENAI_API_BASE" e2) "OPENAI_API_VERSION" v2 := by
  have hTB : ("OPENAI_API_TYPE" : String) ≠ "OPENAI_API_BASE" := by decide
  have hTV : ("OPENAI_API_TYPE" : String) ≠ "OPENAI_API_VERSION" := by decide
  have hBV : ("OPENAI_API_BASE" : String) ≠ "OPENAI_API_VERSION" := by decide
  have cT1 : containsKey (setEnv env "OPENAI_API_TYPE" "azure")
      "OPENAI_API_TYPE" = true :=
    containsKey_setEnv_self env "OPENAI_API_TYPE" "azure"
  have cT2 : containsKey (setEnv (setEnv env "OPENAI_API_TYPE" "azure")
      "OPENAI_API_BASE" e1) "OPENAI_API_TYPE" = true :=
    containsKey_setEnv _ _ _ _ cT1
  have cB1 : containsKey (setEnv (setEnv env "OPENAI_API_TYPE" "azure")
      "OPENAI_API_BASE" e1) "OPENAI_API_BASE" = true :=
    containsKey_setEnv_self _ _ _
  rw [setEnv_comm_of_containsKey _ _ _ "azure" v1 hTV cT2]
  rw [setEnv_comm_of_containsKey _ _ _ "azure" e1 hTB cT1]
  rw [setEnv_setEnv_self env "OPENAI_API_TYPE" "azure" "azure"]
  rw [setEnv_comm_of_containsKey _ _ _ e2 v1 hBV cB1]
  rw [setEnv_setEnv_self (setEnv env "OPENAI_API_TYPE" "azure")
    "OPENAI_API_BASE" e1 e2]
  rw [setEnv_setEnv_self (setEnv (setEnv env "OPENAI_API_TYPE" "azure")
    "OPENAI_API_BASE" e2) "OPENAI_API_VERSION" v1 v2]

/-- Helper: the full result of the Framework C path on a succeeding
construction, spelled out. -/
theorem create_client_openai_agents_ok (sdk : SDKBehavior) (cfg : LLMConfig)
    (s : GlobalState)
    (h : sdk.openai_check (ClientFactory.openai_agents_config cfg) = none) :
    ClientFactory.create_client sdk Framework.OPENAI_AGENTS cfg s
      = (GlobalState.mk
          (some (OpenAIAgentsClient.mk
            (ClientFactory.openai_agents_config cfg), false))
          "chat_completions"
          true
          (setEnv (setEnv (setEnv s.environ "OPENAI_API_TYPE" "azure")
            "OPENAI_API_BASE" cfg.azure_endpoint)
            "OPENAI_API_VERSION" cfg.api_version),
         Except.ok (Client.openai_agents (OpenAIAgentsClient.mk
           (ClientFactory.openai_agents_config cfg)))) := by
  simp [ClientFactory.create_client,
    ClientFactory.create_openai_agents_client, AsyncAzureOpenAI, h,
    set_default_openai_api, set_default_openai_client, set_tracing_disabled,
    GlobalState.setEnvVar, Except.mapError]

/-- C8: re-running the Framework C construction with the identical
configuration converges to the same process state; running it with a second,
different configuration leaves the process state reflecting only the second
call, and that state differs from the state of the first call alone, so the
operation is not idempotent across distinct configurations. -/
theorem create_client_openai_agents_idempotence :
    (∀ (sdk : SDKBehavior) (cfg : LLMConfig) (s : GlobalState),
      sdk.openai_check (ClientFactory.openai_agents_config cfg) = none →
      (ClientFactory.create_client sdk Framework.OPENAI_AGENTS cfg
        (ClientFactory.create_client sdk Framework.OPENAI_AGENTS cfg s).1).1
        = (ClientFactory.create_client sdk Framework.OPENAI_AGENTS cfg s).1)
  ∧ (∀ (sdk : SDKBehavior) (cfg1 cfg2 : LLMConfig) (s : GlobalState),
      sdk.openai_check (ClientFactory.openai_agents_config cfg1) = none →
      sdk.openai_check (ClientFactory.openai_agents_config cfg2) = none →
      (ClientFactory.create_client sdk Framework.OPENAI_AGENTS cfg2
        (ClientFactory.create_client sdk Framework.OPENAI_AGENTS cfg1 s).1).1
        = (ClientFactory.create_client sdk Framework.OPENAI_AGENTS cfg2 s).1)
  ∧ (ClientFactory.create_client sdkOk Framework.OPENAI_AGENTS cfg1x
        (ClientFactory.create_client sdkOk Framework.OPENAI_AGENTS cfg0
          s0).1).1
      ≠ (ClientFactory.create_client sdkOk Framework.OPENAI_AGENTS cfg0
          s0).1 := by
  have hgen : ∀ (sdk : SDKBehavior) (cfg1 cfg2 : LLMConfig)
      (s : GlobalState),
      sdk.openai_check (ClientFactory.openai_agents_config cfg1) = none →
      sdk.openai_check (ClientFactory.openai_agents_config cfg2) = none →
      (ClientFactory.create_client sdk Framework.OPENAI_AGENTS cfg2
        (ClientFactory.create_client sdk Framework.OPENAI_AGENTS cfg1 s).1).1
        = (ClientFactory.create_client sdk Framework.OPENAI_AGENTS cfg2
            s).1 := by
    intro sdk cfg1 cfg2 s h1 h2
    rw [create_client_openai_agents_ok sdk cfg1 s h1]
    rw [create_client_openai_agents_ok sdk cfg2 _ h2]
    rw [create_client_openai_agents_ok sdk cfg2 s h2]
    simp [setEnv_remirror]
  refine ⟨fun sdk cfg s h => hgen sdk cfg cfg s h h, hgen, ?_⟩
  decide

/-- C8 witness: two identical Framework C constructions converge. -/
theorem create_client_openai_agents_idempotence_witness :
    (ClientFactory.create_client sdkOk Framework.OPENAI_AGENTS cfg0
      (ClientFactory.create_client sdkOk Framework.OPENAI_AGENTS cfg0
        s0).1).1
      = (ClientFactory.create_client sdkOk Framework.OPENAI_AGENTS cfg0
          s0).1 :=
  create_client_openai_agents_idempotence.1 sdkOk cfg0 s0 rfl

/-- C9: the named constructor of the Model wrapper, for Framework A only,
translates the configuration in one step with all four capability flags
unconditionally true, pairs configuration, client and framework label, and
its read accessor returns the constructed client. -/
theorem model_wrapper_autogen_constructor (sdk : SDKBehavior)
    (config : ModelConfig) (m : Model)
    (h : Model.from_azure_openai_for_autogen sdk config = Except.ok m) :
    m.config = config
  ∧ m.framework = "Autogen"
  ∧ m.get_client = m.client
  ∧ m.client.kwargs = ChatCompletionKwargs.mk config.azure_endpoint
      config.azure_api_version (ModelCapabilities.mk true true true true)
      config.azure_token_provider config.azure_model_name config.temperature
      config.azure_deployment
  ∧ m.client.kwargs.model_capabilities.function_calling = true
  ∧ m.client.kwargs.model_capabilities.json_output = true
  ∧ m.client.kwargs.model_capabilities.vision = true
  ∧ m.client.kwargs.model_capabilities.structured_output = true := by
  have h2 : (AzureOpenAIChatCompletionClientModel sdk
      (ChatCompletionKwargs.mk config.azure_endpoint config.azure_api_version
        (ModelCapabilities.mk true true true true)
        config.azure_token_provider config.azure_model_name
        config.temperature config.azure_deployment)).map
      (fun model_client => Model.mk config model_client "Autogen")
      = Except.ok m := h
  cases hck : sdk.autogen_model_check
      (ChatCompletionKwargs.mk config.azure_endpoint config.azure_api_version
        (ModelCapabilities.mk true true true true)
        config.azure_token_provider config.azure_model_name
        config.temperature config.azure_deployment) with
  | some e =>
      rw [AzureOpenAIChatCompletionClientModel, hck] at h2
      simp [Except.map] at h2
  | none =>
      rw [AzureOpenAIChatCompletionClientModel, hck] at h2
      simp [Except.map] at h2
      subst h2
      exact ⟨rfl, rfl, rfl, rfl, rfl, rfl, rfl, rfl⟩

/-- Default ModelConfig: all identifying fields None, temperature 0. -/
def mc0 : ModelConfig := {}

/-- The chat-completion kwargs built from mc0. -/
def kwargs0 : ChatCompletionKwargs :=
  ChatCompletionKwargs.mk none none (ModelCapabilities.mk true true true true)
    none none 0 none

/-- C9 witness at a concrete configuration. -/
theorem model_wrapper_autogen_constructor_witness :
    (Model.mk mc0 (AutogenModelClient.mk kwargs0) "Autogen").config = mc0
  ∧ (Model.mk mc0 (AutogenModelClient.mk kwargs0) "Autogen").framework
      = "Autogen"
  ∧ (Model.mk mc0 (AutogenModelClient.mk kwargs0) "Autogen").get_client
      = (Model.mk mc0 (AutogenModelClient.mk kwargs0) "Autogen").client
  ∧ (Model.mk mc0 (AutogenModelClient.mk kwargs0)
      "Autogen").client.kwargs = ChatCompletionKwargs.mk mc0.azure_endpoint
      mc0.azure_api_version (ModelCapabilities.mk true true true true)
      mc0.azure_token_provider mc0.azure_model_name mc0.temperature
      mc0.azure_deployment
  ∧ (Model.mk mc0 (AutogenModelClient.mk kwargs0)
      "Autogen").client.kwargs.model_capabilities.function_calling = true
  ∧ (Model.mk mc0 (AutogenModelClient.mk kwargs0)
      "Autogen").client.kwargs.model_capabilities.json_output = true
  ∧ (Model.mk mc0 (AutogenModelClient.mk kwargs0)
      "Autogen").client.kwargs.model_capabilities.vision = true
  ∧ (Model.mk mc0 (AutogenModelClient.mk kwargs0)
      "Autogen").client.kwargs.model_capabilities.structured_output = true :=
  model_wrapper_autogen_constructor sdkOk mc0
    (Model.mk mc0 (AutogenModelClient.mk kwargs0) "Autogen") rfl

/-- C10: for Framework C, the process-wide mutations happen only after the
underlying constructor has succeeded: on a constructor failure the state
(registration and environment included) is returned exactly unchanged and
only the error escapes. -/
theorem openai_agents_globals_unchanged_on_failure (sdk : SDKBehavior)
    (cfg : LLMConfig) (s : GlobalState) (e : ExtErr)
    (h : sdk.openai_check (ClientFactory.openai_agents_config cfg) = some e) :
    ClientFactory.create_client sdk Framework.OPENAI_AGENTS cfg s
      = (s, Except.error (FactoryError.ClientConstructionError e)) := by
  simp [ClientFactory.create_client,
    ClientFactory.create_openai_agents_client, AsyncAzureOpenAI, h,
    Except.mapError]

/-- C10 witness at a concrete failing construction. -/
theorem openai_agents_globals_unchanged_on_failure_witness :
    ClientFactory.create_client sdkFail Framework.OPENAI_AGENTS cfg0 s0
      = (s0, Except.error (FactoryError.ClientConstructionError
          (ExtErr.mk "malformed endpoint"))) :=
  openai_agents_globals_unchanged_on_failure sdkFail cfg0 s0
    (ExtErr.mk "malformed endpoint") rfl

end SafeAgents
